import Mathlib

/-!
Verification of the stock-ingestion pipeline of a small portfolio-tracking
web application: client-side form validation (add-stock-modal.tsx), the
POST /api/stocks route together with the read routes (routes.ts), and the
client submission effects.  Pure fragments of the TypeScript source are
embedded as Lean functions; the Express try/catch blocks are embedded by
passing the storage outcome as an `Except` value whose error component is
the thrown error's detail.
-/

/-- A stock-creation payload: the seven fields of the creation form and of the
POST /api/stocks JSON body.  `volume` is sent as a JSON number produced by
`parseInt(...) || 0` on the client, hence an integer. -/
structure StockPayload where
  symbol : String
  name : String
  price : String
  change : String
  changePercent : String
  volume : Int
  marketCap : String
deriving Repr, DecidableEq

/-- A persisted Stock record: the payload fields plus the server-assigned id. -/
structure Stock where
  id : Nat
  symbol : String
  name : String
  price : String
  change : String
  changePercent : String
  volume : Int
  marketCap : String
deriving Repr, DecidableEq

/-- A zod field-level issue: the path of the offending field and a message. -/
structure FieldError where
  path : List String
  message : String
deriving Repr, DecidableEq

/-- Client-side form schema (add-stock-modal.tsx lines 28-36, first copy):
`insertStockSchema.extend` overriding every field, so the listed rules are the
whole rule set.  Each zod check that fails contributes one issue, in field
declaration order. -/
def formSchemaErrors (p : StockPayload) : List FieldError :=
  (if p.symbol.length < 1 then [⟨["symbol"], "Symbol is required"⟩] else []) ++
  (if p.symbol.length > 5 then [⟨["symbol"], "Symbol must be 5 characters or less"⟩] else []) ++
  (if p.name.length < 1 then [⟨["name"], "Company name is required"⟩] else []) ++
  (if p.price.length < 1 then [⟨["price"], "Price is required"⟩] else []) ++
  (if p.change.length < 1 then [⟨["change"], "Change is required"⟩] else []) ++
  (if p.changePercent.length < 1 then [⟨["changePercent"], "Change percent is required"⟩] else []) ++
  (if p.volume < 0 then [⟨["volume"], "Volume must be positive"⟩] else []) ++
  (if p.marketCap.length < 1 then [⟨["marketCap"], "Market cap is required"⟩] else [])

/-- Client-side safeParse: a typed payload parses iff no field check fails. -/
def formSchema_safeParse (p : StockPayload) : Except (List FieldError) StockPayload :=
  match formSchemaErrors p with
  | [] => .ok p
  | errs => .error errs

/-- Modelled from the spec: `insertStockSchema` lives in `@shared/schema`, a
module of this repository that is not among the given sources; spec section 4.1
gives its rules (symbol required, length 1-5; name, price, change,
changePercent, marketCap required non-empty strings; volume required, numeric,
at least 0).  Messages are zod's defaults since the spec names none. -/
def insertStockSchemaErrors (p : StockPayload) : List FieldError :=
  (if p.symbol.length < 1 ∨ p.symbol.length > 5
    then [⟨["symbol"], "Symbol must be 1 to 5 characters"⟩] else []) ++
  (if p.name.length < 1
    then [⟨["name"], "String must contain at least 1 character(s)"⟩] else []) ++
  (if p.price.length < 1
    then [⟨["price"], "String must contain at least 1 character(s)"⟩] else []) ++
  (if p.change.length < 1
    then [⟨["change"], "String must contain at least 1 character(s)"⟩] else []) ++
  (if p.changePercent.length < 1
    then [⟨["changePercent"], "String must contain at least 1 character(s)"⟩] else []) ++
  (if p.volume < 0
    then [⟨["volume"], "Number must be greater than or equal to 0"⟩] else []) ++
  (if p.marketCap.length < 1
    then [⟨["marketCap"], "String must contain at least 1 character(s)"⟩] else [])

/-- Server-side safeParse used by the POST /api/stocks handler. -/
def insertStockSchema_safeParse (p : StockPayload) : Except (List FieldError) StockPayload :=
  match insertStockSchemaErrors p with
  | [] => .ok p
  | errs => .error errs

/-- The predicate both validators are claimed to decide: symbol length 1-5,
every other string field non-empty, volume at least 0. -/
def ValidPayload (p : StockPayload) : Prop :=
  1 ≤ p.symbol.length ∧ p.symbol.length ≤ 5 ∧
  1 ≤ p.name.length ∧ 1 ≤ p.price.length ∧ 1 ≤ p.change.length ∧
  1 ≤ p.changePercent.length ∧ 0 ≤ p.volume ∧ 1 ≤ p.marketCap.length

instance (p : StockPayload) : Decidable (ValidPayload p) := by
  unfold ValidPayload; infer_instance

/-- A transaction record.  Modelled from the spec: `server/storage.ts` is not
among the given sources; spec section 3 says a transaction is keyed by a user
identifier. -/
structure Transaction where
  id : Nat
  userId : Int
deriving Repr, DecidableEq

/-- A portfolio record.  Modelled from the spec: keyed by a user identifier. -/
structure Portfolio where
  userId : Int
deriving Repr, DecidableEq

/-- Modelled from the spec: the in-memory storage owned by `server/storage.ts`
(not among the given sources), holding all persisted records (spec sections 2
and 4.2). -/
structure MemStorage where
  stocks : List Stock
  transactions : List Transaction
  portfolios : List Portfolio
  currentStockId : Nat
deriving Repr, DecidableEq

/-- Modelled from the spec: storage.getPortfolio returns the portfolio record
or a not-found signal (spec section 4.2). -/
def getPortfolio (st : MemStorage) (userId : Int) : Option Portfolio :=
  st.portfolios.find? (fun pf => pf.userId == userId)

/-- Modelled from the spec: storage.getAllStocks returns all known Stock
records in insertion order (spec section 4.2). -/
def getAllStocks (st : MemStorage) : List Stock :=
  st.stocks

/-- Modelled from the spec: storage.getTransactions returns the sequence of
transaction records for that user, possibly empty (spec section 4.2). -/
def getTransactions (st : MemStorage) (userId : Int) : List Transaction :=
  st.transactions.filter (fun t => t.userId == userId)

/-- Modelled from the spec: storage.createStock persists the validated record
with a server-assigned identifier and returns the newly created Stock record
(spec section 4.2). -/
def createStock (st : MemStorage) (p : StockPayload) : Stock × MemStorage :=
  let s : Stock :=
    { id := st.currentStockId, symbol := p.symbol, name := p.name, price := p.price
      change := p.change, changePercent := p.changePercent, volume := p.volume
      marketCap := p.marketCap }
  (s, { st with stocks := st.stocks ++ [s], currentStockId := st.currentStockId + 1 })

/-- JSON response bodies the routes produce. -/
inductive ApiBody where
  | message (msg : String)
  | validationError (msg : String) (errors : List FieldError)
  | stockBody (s : Stock)
  | stockListBody (l : List Stock)
  | transactionListBody (l : List Transaction)
  | portfolioBody (pf : Portfolio)
deriving Repr, DecidableEq

/-- An HTTP response: status code and JSON body. -/
structure ApiResponse where
  status : Nat
  body : ApiBody
deriving Repr, DecidableEq

/-- GET /api/portfolio/:userId handler (routes.ts lines 8-21), as a function of
the storage call's outcome; a thrown error carries its detail in the
`Except.error` string, which the catch block discards. -/
def getPortfolioRoute (outcome : Except String (Option Portfolio)) : ApiResponse :=
  match outcome with
  | .error _ => ⟨500, .message "Failed to fetch portfolio"⟩
  | .ok none => ⟨404, .message "Portfolio not found"⟩
  | .ok (some pf) => ⟨200, .portfolioBody pf⟩

/-- GET /api/stocks handler (routes.ts lines 24-31). -/
def getStocksRoute (outcome : Except String (List Stock)) : ApiResponse :=
  match outcome with
  | .error _ => ⟨500, .message "Failed to fetch stocks"⟩
  | .ok stocks => ⟨200, .stockListBody stocks⟩

/-- GET /api/transactions/:userId handler (routes.ts lines 34-42): `res.json`
answers 200 whatever the list, empty included. -/
def getTransactionsRoute (outcome : Except String (List Transaction)) : ApiResponse :=
  match outcome with
  | .error _ => ⟨500, .message "Failed to fetch transactions"⟩
  | .ok txns => ⟨200, .transactionListBody txns⟩

/-- POST /api/stocks handler (routes.ts lines 45-57) over an arbitrary
persistence outcome: validate, 400 with the issue list on failure, otherwise
persist and answer 201, or 500 if persistence throws. -/
def postStocksRoute (body : StockPayload) (persist : StockPayload → Except String Stock) :
    ApiResponse :=
  match insertStockSchema_safeParse body with
  | .error errs => ⟨400, .validationError "Invalid stock data" errs⟩
  | .ok data =>
    match persist data with
    | .error _ => ⟨500, .message "Failed to create stock"⟩
    | .ok s => ⟨201, .stockBody s⟩

/-- POST /api/stocks against the in-memory storage, tracking the storage state;
`persistFails` selects whether `storage.createStock` throws. -/
def postStocksEndpoint (st : MemStorage) (body : StockPayload) (persistFails : Bool) :
    ApiResponse × MemStorage :=
  match insertStockSchema_safeParse body with
  | .error errs => (⟨400, .validationError "Invalid stock data" errs⟩, st)
  | .ok data =>
    if persistFails then (⟨500, .message "Failed to create stock"⟩, st)
    else
      let (s, st2) := createStock st data
      (⟨201, .stockBody s⟩, st2)

/-- A toast notification: title, description, optional variant
("destructive" marks a negative notification). -/
structure Toast where
  title : String
  description : String
  variant : Option String
deriving Repr, DecidableEq

/-- The observable effects the modal component can perform. -/
inductive ClientEffect where
  | invalidateQueries (queryKey : List String)
  | showToast (t : Toast)
  | resetForm
  | closeDialog
  | sendRequest (method : String) (url : String) (payload : StockPayload)
  | displayFieldErrors (errs : List FieldError)
deriving Repr, DecidableEq

/-- The form's default values (add-stock-modal.tsx lines 49-58, first copy). -/
def defaultValues : StockPayload :=
  { symbol := "", name := "", price := "", change := "", changePercent := ""
    volume := 0, marketCap := "" }

/-- Effects of `onSuccess` (add-stock-modal.tsx lines 70-78, first copy), in
source order: invalidate the stock-list query, positive toast, reset the form,
close the dialog. -/
def onSuccessEffects : List ClientEffect :=
  [ .invalidateQueries ["/api/stocks"],
    .showToast ⟨"Success", "Stock added to watchlist successfully!", none⟩,
    .resetForm,
    .closeDialog ]

/-- Effects of `onError` (add-stock-modal.tsx lines 79-86, first copy): one
destructive toast, nothing else — no reset, no retry request. -/
def onErrorEffects : List ClientEffect :=
  [ .showToast ⟨"Error", "Failed to add stock to watchlist. Please try again.",
      some "destructive"⟩ ]

/-- The validated submit path (add-stock-modal.tsx lines 88-90 and 105, first
copy): `form.handleSubmit(onSubmit)` runs the zod resolver; on failure it
displays the field errors and issues no request, on success `onSubmit` mutates,
issuing exactly the POST /api/stocks request. -/
def handleSubmit (vals : StockPayload) : List ClientEffect :=
  match formSchema_safeParse vals with
  | .error errs => [.displayFieldErrors errs]
  | .ok data => [.sendRequest "POST" "/api/stocks" data]

/-- Whether an effect is an outgoing network request. -/
def isSendRequest : ClientEffect → Bool
  | .sendRequest .. => true
  | _ => false

/-- Client-side observable state: the form values, the dialog flag, and the
logs of toasts shown, query keys invalidated and requests sent. -/
structure ClientState where
  formValues : StockPayload
  dialogOpen : Bool
  toasts : List Toast
  invalidatedKeys : List (List String)
  requests : List (String × String × StockPayload)
  fieldErrors : List FieldError
deriving Repr, DecidableEq

/-- Interpretation of one effect on the client state. -/
def applyEffect (s : ClientState) : ClientEffect → ClientState
  | .invalidateQueries k => { s with invalidatedKeys := s.invalidatedKeys ++ [k] }
  | .showToast t => { s with toasts := s.toasts ++ [t] }
  | .resetForm => { s with formValues := defaultValues }
  | .closeDialog => { s with dialogOpen := false }
  | .sendRequest m u p => { s with requests := s.requests ++ [(m, u, p)] }
  | .displayFieldErrors e => { s with fieldErrors := e }

/-- Interpretation of a list of effects, left to right. -/
def applyEffects (s : ClientState) (l : List ClientEffect) : ClientState :=
  l.foldl applyEffect s

/-- JavaScript `parseInt(text)` restricted to decimal text (the only text an
`<input type="number">` yields): skip leading whitespace, read an optional
sign, then the longest leading run of digits; `none` models `NaN`. -/
def jsParseInt (s : String) : Option Int :=
  let cs := s.data.dropWhile Char.isWhitespace
  let signAndRest : Int × List Char :=
    match cs with
    | '-' :: t => (-1, t)
    | '+' :: t => (1, t)
    | t => (1, t)
  let ds := signAndRest.2.takeWhile Char.isDigit
  if ds.isEmpty then none
  else some (signAndRest.1 * (ds.foldl (fun a c => a * 10 + (c.toNat - 48)) 0 : Nat))

/-- The volume field's onChange (add-stock-modal.tsx line 212, first copy):
`field.onChange(parseInt(e.target.value) || 0)` — `NaN || 0` and `0 || 0` are
both `0`, any other parse is kept. -/
def volumeOnChange (text : String) : Int :=
  match jsParseInt text with
  | none => 0
  | some n => if n = 0 then 0 else n

namespace Copy2

/-- Form schema of the second copy of the component (add-stock-modal.tsx lines
298-306): same extend of `insertStockSchema` with the same checks and
messages. -/
def formSchemaErrors (p : StockPayload) : List FieldError :=
  (if p.symbol.length < 1 then [⟨["symbol"], "Symbol is required"⟩] else []) ++
  (if p.symbol.length > 5 then [⟨["symbol"], "Symbol must be 5 characters or less"⟩] else []) ++
  (if p.name.length < 1 then [⟨["name"], "Company name is required"⟩] else []) ++
  (if p.price.length < 1 then [⟨["price"], "Price is required"⟩] else []) ++
  (if p.change.length < 1 then [⟨["change"], "Change is required"⟩] else []) ++
  (if p.changePercent.length < 1 then [⟨["changePercent"], "Change percent is required"⟩] else []) ++
  (if p.volume < 0 then [⟨["volume"], "Volume must be positive"⟩] else []) ++
  (if p.marketCap.length < 1 then [⟨["marketCap"], "Market cap is required"⟩] else [])

/-- safeParse of the second copy's schema. -/
def formSchema_safeParse (p : StockPayload) : Except (List FieldError) StockPayload :=
  match formSchemaErrors p with
  | [] => .ok p
  | errs => .error errs

/-- Default form values of the second copy (lines 319-327). -/
def defaultValues : StockPayload :=
  { symbol := "", name := "", price := "", change := "", changePercent := ""
    volume := 0, marketCap := "" }

/-- onSuccess effects of the second copy (lines 340-348). -/
def onSuccessEffects : List ClientEffect :=
  [ .invalidateQueries ["/api/stocks"],
    .showToast ⟨"Success", "Stock added to watchlist successfully!", none⟩,
    .resetForm,
    .closeDialog ]

/-- onError effects of the second copy (lines 349-355). -/
def onErrorEffects : List ClientEffect :=
  [ .showToast ⟨"Error", "Failed to add stock to watchlist. Please try again.",
      some "destructive"⟩ ]

/-- Validated submit path of the second copy (lines 358-360 and 380). -/
def handleSubmit (vals : StockPayload) : List ClientEffect :=
  match formSchema_safeParse vals with
  | .error errs => [.displayFieldErrors errs]
  | .ok data => [.sendRequest "POST" "/api/stocks" data]

/-- Volume onChange of the second copy (line 487), same
`parseInt(e.target.value) || 0` coercion. -/
def volumeOnChange (text : String) : Int :=
  match jsParseInt text with
  | none => 0
  | some n => if n = 0 then 0 else n

end Copy2

/-- Helper payload: the submission scenario from spec section 8. -/
def applePayload : StockPayload :=
  { symbol := "AAPL", name := "Apple Inc.", price := "173.50", change := "4.12"
    changePercent := "2.4", volume := 45200000, marketCap := "$2.7T" }

/-- Helper state: a storage with nothing in it yet. -/
def emptyStorage : MemStorage :=
  { stocks := [], transactions := [], portfolios := [], currentStockId := 1 }

/-- The client-side schema accepts exactly the payloads satisfying
`ValidPayload`. -/
theorem formSchemaErrors_eq_nil_iff (p : StockPayload) :
    formSchemaErrors p = [] ↔ ValidPayload p := by
  simp only [formSchemaErrors, ValidPayload, List.append_eq_nil, ite_eq_right_iff,
    List.cons_ne_nil, imp_false]
  omega

/-- The server-side schema accepts exactly the payloads satisfying
`ValidPayload`. -/
theorem insertStockSchemaErrors_eq_nil_iff (p : StockPayload) :
    insertStockSchemaErrors p = [] ↔ ValidPayload p := by
  simp only [insertStockSchemaErrors, ValidPayload, List.append_eq_nil, ite_eq_right_iff,
    List.cons_ne_nil, imp_false, not_or]
  omega

/-- A rejection by the server-side safeParse carries exactly the schema's
issue list. -/
theorem insertStockSchema_safeParse_error {p : StockPayload} {e : List FieldError}
    (h : insertStockSchema_safeParse p = .error e) : e = insertStockSchemaErrors p := by
  unfold insertStockSchema_safeParse at h
  rcases h2 : insertStockSchemaErrors p with _ | ⟨f, l⟩ <;> rw [h2] at h <;>
    simp_all

/-- C1: the client-side form schema and the server-side insertStockSchema
accept and reject the same creation payloads: their safeParse results succeed
together. -/
theorem client_server_validators_agree (p : StockPayload) :
    (formSchema_safeParse p).isOk = (insertStockSchema_safeParse p).isOk := by
  unfold formSchema_safeParse insertStockSchema_safeParse
  rcases h1 : formSchemaErrors p with _ | ⟨e, l⟩ <;>
    rcases h2 : insertStockSchemaErrors p with _ | ⟨f, m⟩ <;> simp [Except.isOk, Except.toBool]
  · have hv := (formSchemaErrors_eq_nil_iff p).mp h1
    have := (insertStockSchemaErrors_eq_nil_iff p).mpr hv
    simp [this] at h2
  · have hv := (insertStockSchemaErrors_eq_nil_iff p).mp h2
    have := (formSchemaErrors_eq_nil_iff p).mpr hv
    simp [this] at h1

/-- C2: every valid creation payload (symbol length 1-5, strings non-empty,
volume at least 0) makes POST /api/stocks answer 201, and every field of the
returned record equals the submitted field. -/
theorem post_valid_payload_created (st : MemStorage) (p : StockPayload)
    (h : ValidPayload p) :
    ∃ s st2, postStocksEndpoint st p false = (⟨201, .stockBody s⟩, st2) ∧
      s.symbol = p.symbol ∧ s.name = p.name ∧ s.price = p.price ∧
      s.change = p.change ∧ s.changePercent = p.changePercent ∧
      s.volume = p.volume ∧ s.marketCap = p.marketCap := by
  have h0 : insertStockSchemaErrors p = [] := (insertStockSchemaErrors_eq_nil_iff p).mpr h
  refine ⟨(createStock st p).1, (createStock st p).2, ?_, rfl, rfl, rfl, rfl, rfl, rfl, rfl⟩
  simp [postStocksEndpoint, insertStockSchema_safeParse, h0]

/-- Witness for C2 at the spec's sample submission against an empty storage. -/
theorem post_valid_payload_created_witness :
    ValidPayload applePayload ∧
    ∃ s st2, postStocksEndpoint emptyStorage applePayload false =
        (⟨201, .stockBody s⟩, st2) ∧
      s.symbol = applePayload.symbol ∧ s.name = applePayload.name ∧
      s.price = applePayload.price ∧ s.change = applePayload.change ∧
      s.changePercent = applePayload.changePercent ∧
      s.volume = applePayload.volume ∧ s.marketCap = applePayload.marketCap :=
  ⟨by decide, post_valid_payload_created emptyStorage applePayload (by decide)⟩

/-- C3: the POST /api/stocks handler answers exactly one of 400 (schema
rejection, with the message and the issue list, storage untouched), 201
(validation and persistence succeed, created record returned) or 500
(persistence throws, generic message, storage as the throw left it). -/
theorem post_route_cases (st : MemStorage) (p : StockPayload) (persistFails : Bool) :
    (insertStockSchemaErrors p ≠ [] →
      postStocksEndpoint st p persistFails =
        (⟨400, .validationError "Invalid stock data" (insertStockSchemaErrors p)⟩, st)) ∧
    (insertStockSchemaErrors p = [] → persistFails = false →
      postStocksEndpoint st p persistFails =
        (⟨201, .stockBody (createStock st p).1⟩, (createStock st p).2)) ∧
    (insertStockSchemaErrors p = [] → persistFails = true →
      postStocksEndpoint st p persistFails =
        (⟨500, .message "Failed to create stock"⟩, st)) := by
  refine ⟨fun h => ?_, fun h hb => ?_, fun h hb => ?_⟩ <;>
    rcases h2 : insertStockSchemaErrors p with _ | ⟨f, m⟩ <;>
      simp_all [postStocksEndpoint, insertStockSchema_safeParse]

/-- Witness for C3: the all-empty payload is rejected with the schema's issue
list and the storage is left untouched. -/
theorem post_route_cases_witness :
    insertStockSchemaErrors defaultValues ≠ [] ∧
    postStocksEndpoint emptyStorage defaultValues false =
      (⟨400, .validationError "Invalid stock data" (insertStockSchemaErrors defaultValues)⟩,
        emptyStorage) :=
  ⟨by decide, (post_route_cases emptyStorage defaultValues false).1 (by decide)⟩

/-- C4: a failed submission shows the destructive toast and nothing else: the
form values are untouched (no reset to defaults), no request is sent and the
effect list holds no outgoing request. -/
theorem failure_keeps_form_no_retry (s : ClientState) :
    (applyEffects s onErrorEffects).formValues = s.formValues ∧
    (applyEffects s onErrorEffects).toasts = s.toasts ++
      [⟨"Error", "Failed to add stock to watchlist. Please try again.",
        some "destructive"⟩] ∧
    (applyEffects s onErrorEffects).requests = s.requests ∧
    onErrorEffects.filter isSendRequest = [] := by
  refine ⟨rfl, rfl, rfl, rfl⟩

/-- C5: a successful submission performs all four effects: the stock-list
query key is invalidated, the form is reset to its empty defaults, the dialog
is closed and the positive toast is shown. -/
theorem success_four_effects (s : ClientState) :
    (applyEffects s onSuccessEffects).invalidatedKeys =
      s.invalidatedKeys ++ [["/api/stocks"]] ∧
    (applyEffects s onSuccessEffects).formValues = defaultValues ∧
    (applyEffects s onSuccessEffects).dialogOpen = false ∧
    (applyEffects s onSuccessEffects).toasts = s.toasts ++
      [⟨"Success", "Stock added to watchlist successfully!", none⟩] := by
  refine ⟨rfl, rfl, rfl, rfl⟩

/-- C6: with an empty symbol the client-side resolver blocks the submission
(no request effect is produced), and a direct POST /api/stocks answers 400
whose issue list holds a symbol-path entry. -/
theorem empty_symbol_rejected_both_sides (p : StockPayload) (st : MemStorage)
    (persistFails : Bool) (h : p.symbol = "") :
    (handleSubmit p).filter isSendRequest = [] ∧
    (postStocksEndpoint st p persistFails).1.status = 400 ∧
    (postStocksEndpoint st p persistFails).1.body =
      .validationError "Invalid stock data" (insertStockSchemaErrors p) ∧
    ((insertStockSchemaErrors p).any fun e => e.path == ["symbol"]) = true := by
  have hl : p.symbol.length = 0 := by rw [h]; rfl
  have hc : formSchemaErrors p =
      ⟨["symbol"], "Symbol is required"⟩ ::
        ((if p.name.length < 1 then [⟨["name"], "Company name is required"⟩] else []) ++
         (if p.price.length < 1 then [⟨["price"], "Price is required"⟩] else []) ++
         (if p.change.length < 1 then [⟨["change"], "Change is required"⟩] else []) ++
         (if p.changePercent.length < 1
           then [⟨["changePercent"], "Change percent is required"⟩] else []) ++
         (if p.volume < 0 then [⟨["volume"], "Volume must be positive"⟩] else []) ++
         (if p.marketCap.length < 1 then [⟨["marketCap"], "Market cap is required"⟩] else [])) := by
    simp [formSchemaErrors, hl]
  have hs : insertStockSchemaErrors p =
      ⟨["symbol"], "Symbol must be 1 to 5 characters"⟩ ::
        ((if p.name.length < 1
           then [⟨["name"], "String must contain at least 1 character(s)"⟩] else []) ++
         (if p.price.length < 1
           then [⟨["price"], "String must contain at least 1 character(s)"⟩] else []) ++
         (if p.change.length < 1
           then [⟨["change"], "String must contain at least 1 character(s)"⟩] else []) ++
         (if p.changePercent.length < 1
           then [⟨["changePercent"], "String must contain at least 1 character(s)"⟩] else []) ++
         (if p.volume < 0
           then [⟨["volume"], "Number must be greater than or equal to 0"⟩] else []) ++
         (if p.marketCap.length < 1
           then [⟨["marketCap"], "String must contain at least 1 character(s)"⟩] else [])) := by
    simp [insertStockSchemaErrors, hl]
  refine ⟨?_, ?_, ?_, ?_⟩
  · simp [handleSubmit, formSchema_safeParse, hc, isSendRequest]
  · simp [postStocksEndpoint, insertStockSchema_safeParse, hs]
  · simp [postStocksEndpoint, insertStockSchema_safeParse, hs]
  · simp [hs]

/-- Witness for C6 at the all-empty payload. -/
theorem empty_symbol_rejected_both_sides_witness :
    defaultValues.symbol = "" ∧
    ((handleSubmit defaultValues).filter isSendRequest = [] ∧
     (postStocksEndpoint emptyStorage defaultValues false).1.status = 400 ∧
     (postStocksEndpoint emptyStorage defaultValues false).1.body =
       .validationError "Invalid stock data" (insertStockSchemaErrors defaultValues) ∧
     ((insertStockSchemaErrors defaultValues).any fun e => e.path == ["symbol"]) = true) :=
  ⟨rfl, empty_symbol_rejected_both_sides defaultValues emptyStorage false rfl⟩

/-- C7: for a user with no transactions the transactions route answers 200
with the empty array, and in particular not 404. -/
theorem transactions_empty_is_200 (st : MemStorage) (userId : Int)
    (h : getTransactions st userId = []) :
    getTransactionsRoute (.ok (getTransactions st userId)) =
      ⟨200, .transactionListBody []⟩ ∧
    (getTransactionsRoute (.ok (getTransactions st userId))).status ≠ 404 := by
  rw [h]
  exact ⟨rfl, by decide⟩

/-- Witness for C7: user 7 against the empty storage. -/
theorem transactions_empty_is_200_witness :
    getTransactions emptyStorage 7 = [] ∧
    (getTransactionsRoute (.ok (getTransactions emptyStorage 7)) =
      ⟨200, .transactionListBody []⟩ ∧
     (getTransactionsRoute (.ok (getTransactions emptyStorage 7))).status ≠ 404) :=
  ⟨rfl, transactions_empty_is_200 emptyStorage 7 rfl⟩

/-- C8: every catch block answers a fixed generic message, independent of the
thrown error's value; the GET routes never return field errors, and a
field-error body only occurs on the POST 400 path, carrying exactly the schema
issue list. -/
theorem internal_errors_generic (e1 e2 : String) :
    getPortfolioRoute (.error e1) = getPortfolioRoute (.error e2) ∧
    getPortfolioRoute (.error e1) = ⟨500, .message "Failed to fetch portfolio"⟩ ∧
    getStocksRoute (.error e1) = getStocksRoute (.error e2) ∧
    getStocksRoute (.error e1) = ⟨500, .message "Failed to fetch stocks"⟩ ∧
    getTransactionsRoute (.error e1) = getTransactionsRoute (.error e2) ∧
    getTransactionsRoute (.error e1) = ⟨500, .message "Failed to fetch transactions"⟩ ∧
    (∀ p : StockPayload,
      postStocksRoute p (fun _ => .error e1) = postStocksRoute p (fun _ => .error e2)) ∧
    (∀ o m errs, (getPortfolioRoute o).body ≠ .validationError m errs) ∧
    (∀ o m errs, (getStocksRoute o).body ≠ .validationError m errs) ∧
    (∀ o m errs, (getTransactionsRoute o).body ≠ .validationError m errs) ∧
    (∀ p persist m errs, (postStocksRoute p persist).body = .validationError m errs →
      (postStocksRoute p persist).status = 400 ∧ m = "Invalid stock data" ∧
        errs = insertStockSchemaErrors p) := by
  refine ⟨rfl, rfl, rfl, rfl, rfl, rfl, fun p => ?_, fun o m errs => ?_, fun o m errs => ?_,
    fun o m errs => ?_, fun p persist m errs hb => ?_⟩
  · unfold postStocksRoute
    rcases h : insertStockSchema_safeParse p with e | d <;> simp
  · rcases o with e | _ | pf <;> simp [getPortfolioRoute]
  · rcases o with e | l <;> simp [getStocksRoute]
  · rcases o with e | l <;> simp [getTransactionsRoute]
  · unfold postStocksRoute at hb ⊢
    rcases h : insertStockSchema_safeParse p with e | d
    · have he : e = insertStockSchemaErrors p := insertStockSchema_safeParse_error h
      simp at hb ⊢
      simp_all
    · rcases hp : persist d with f | s <;> simp_all

/-- Witness for C8: two distinct thrown errors get the same generic 500, and
a concrete 400 body is tied to the schema issue list. -/
theorem internal_errors_generic_witness :
    getPortfolioRoute (.error "connection reset") =
      ⟨500, .message "Failed to fetch portfolio"⟩ ∧
    postStocksRoute applePayload (fun _ => .error "connection reset") =
      postStocksRoute applePayload (fun _ => .error "disk full") ∧
    ((postStocksRoute defaultValues (fun _ => .error "oom")).status = 400 ∧
      "Invalid stock data" = "Invalid stock data" ∧
      insertStockSchemaErrors defaultValues = insertStockSchemaErrors defaultValues) :=
  ⟨(internal_errors_generic "connection reset" "disk full").2.1,
   (internal_errors_generic "connection reset" "disk full").2.2.2.2.2.2.1 applePayload,
   (internal_errors_generic "oom" "oom").2.2.2.2.2.2.2.2.2.2 defaultValues
     (fun _ => .error "oom") "Invalid stock data" (insertStockSchemaErrors defaultValues)
     (by decide)⟩

/-- C9: the two textual copies of the AddStockModal component agree on the
validation schema, the default form values, the success effects, the failure
effects, the submit path and the volume coercion; they differ only in
markup. -/
theorem modal_copies_equivalent :
    (∀ p, Copy2.formSchemaErrors p = formSchemaErrors p) ∧
    Copy2.defaultValues = defaultValues ∧
    Copy2.onSuccessEffects = onSuccessEffects ∧
    Copy2.onErrorEffects = onErrorEffects ∧
    (∀ p, Copy2.handleSubmit p = handleSubmit p) ∧
    (∀ t, Copy2.volumeOnChange t = volumeOnChange t) :=
  ⟨fun _ => rfl, rfl, rfl, rfl, fun _ => rfl, fun _ => rfl⟩

/-- C10: the volume field stores the text's integer parse when it parses to a
non-zero integer and 0 otherwise; in particular empty or non-numeric text is
stored as 0, which raises no volume-field issue. -/
theorem volume_input_coerced (t : String) :
    (∀ n : Int, jsParseInt t = some n → n ≠ 0 → volumeOnChange t = n) ∧
    (jsParseInt t = none → volumeOnChange t = 0) ∧
    (jsParseInt t = some 0 → volumeOnChange t = 0) ∧
    (∀ p : StockPayload, jsParseInt t = none →
      ((formSchemaErrors { p with volume := volumeOnChange t }).filter
        fun e => e.path == ["volume"]) = []) := by
  refine ⟨fun n hp hn => ?_, fun hp => ?_, fun hp => ?_, fun p hp => ?_⟩
  · simp [volumeOnChange, hp, hn]
  · simp [volumeOnChange, hp]
  · simp [volumeOnChange, hp]
  · have h0 : volumeOnChange t = 0 := by simp [volumeOnChange, hp]
    rw [h0]
    unfold formSchemaErrors
    simp only [List.filter_append]
    split_ifs <;> first
      | omega
      | simp [FieldError.path]

/-- Witness for C10 on empty, non-numeric and numeric text. -/
theorem volume_input_coerced_witness :
    (jsParseInt "" = none ∧ volumeOnChange "" = 0) ∧
    (jsParseInt "abc" = none ∧ volumeOnChange "abc" = 0) ∧
    (jsParseInt "42" = some 42 ∧ volumeOnChange "42" = 42) ∧
    ((formSchemaErrors { applePayload with volume := volumeOnChange "" }).filter
      fun e => e.path == ["volume"]) = [] :=
  ⟨⟨by decide, (volume_input_coerced "").2.1 (by decide)⟩,
   ⟨by decide, (volume_input_coerced "abc").2.1 (by decide)⟩,
   ⟨by decide, (volume_input_coerced "42").1 42 (by decide) (by decide)⟩,
   (volume_input_coerced "").2.2.2 applePayload (by decide)⟩
